import Mathlib

/-!
Verification of the voice-driven triage interview engine
(`backend/app/services/simple_triage.py`) and the AI-summary response cache
(`backend/app/services/ai_summary_service.py`).

Modelling conventions:
* Python strings are modelled as Lean `String` / `List Char` (ASCII level);
  `str.lower`, `str.strip`, `re.sub` on the fixed punctuation class and
  substring tests (`in`) are translated directly.
* Python `float` values are binary64 numbers, represented by the rationals
  they denote exactly. The scorer is modelled twice: `calculate_urgency`
  idealizes the decimal literals and sums as exact rationals, and
  `calculate_urgency_fp` is the bit-faithful binary64 model (`fl` rounds to
  53 significant bits, nearest, ties to even) whose values were checked
  against CPython doubles; the idealization is relied on only at inputs
  where the two observably coincide.
* Python dicts are modelled as association lists (`dictSet` replaces an
  existing binding in place, as dict assignment does), except the summary
  cache, whose dict is modelled as a partial map so that lazy eviction is
  observable.
* `asyncio.sleep(0.5)` is modelled by recording the requested delay; the
  external persistence collaborator (`patient_service.create_patient`) is
  modelled as an oracle `Nat → Option String` giving, per attempt number,
  either a fresh record id or a failure.
-/

namespace Triage

/-! ### Python string primitives -/

/-- The whitespace characters stripped by Python `str.strip()` and matched by
the regex class `\s` (ASCII fragment). -/
def pyWhitespace : List Char := [' ', '\t', '\n', '\r', '\x0b', '\x0c']

def isPySpace (c : Char) : Bool := pyWhitespace.contains c

/-- Python `str.strip()`: remove leading and trailing whitespace. -/
def pyStrip (l : List Char) : List Char :=
  ((l.dropWhile isPySpace).reverse.dropWhile isPySpace).reverse

/-- Python `str.lower()` (ASCII fragment). -/
def pyLower (l : List Char) : List Char := l.map Char.toLower

/-- The punctuation class removed by `re.sub(r'[.,!?;:]', '', _)`. -/
def punctuationChars : List Char := ['.', ',', '!', '?', ';', ':']

/-- `re.sub(r'[.,!?;:]', '', s)`: delete every character of the class. -/
def stripPunct (l : List Char) : List Char :=
  l.filter (fun c => !(punctuationChars.contains c))

/-- `needle` occurs at the head of `hay`. -/
def headMatches : List Char → List Char → Bool
  | [], _ => true
  | _ :: _, [] => false
  | a :: as, b :: bs => a == b && headMatches as bs

/-- Python substring test `needle in hay`. -/
def hasSub (needle : List Char) : List Char → Bool
  | [] => headMatches needle []
  | c :: rest => headMatches needle (c :: rest) || hasSub needle rest

/-- Python `str.split()` with no argument: split on whitespace runs,
dropping empty chunks. -/
def pySplit (l : List Char) : List (List Char) :=
  (l.splitOnP isPySpace).filter (fun w => !w.isEmpty)

/-- Python `str.capitalize()`: first character upper-cased, rest lower-cased
(ASCII fragment). -/
def pyCapitalize : List Char → List Char
  | [] => []
  | c :: rest => Char.toUpper c :: rest.map Char.toLower

def isAsciiLetter (c : Char) : Bool :=
  ('a' ≤ c && c ≤ 'z') || ('A' ≤ c && c ≤ 'Z')

/-- The first contiguous digit run of the text: `re.findall(r'\d+', s)[0]`. -/
def firstDigitRun : List Char → Option (List Char)
  | [] => none
  | c :: rest =>
    if c.isDigit then some (c :: rest.takeWhile Char.isDigit)
    else firstDigitRun rest

/-- Decimal digits to the natural number they denote (`int(...)` on a digit
string). -/
def digitsToNat (l : List Char) : Nat :=
  l.foldl (fun acc c => acc * 10 + (c.toNat - 48)) 0

/-! ### Dict helpers (Python dict as association list) -/

/-- Python `d[k] = v`: replace the existing binding in place, else append. -/
def dictSet {α : Type} : List (String × α) → String → α → List (String × α)
  | [], k, v => [(k, v)]
  | (k0, v0) :: rest, k, v =>
    if k0 = k then (k, v) :: rest else (k0, v0) :: dictSet rest k v

/-- Lookup of a key in an association list. -/
def dictFind {α : Type} : List (String × α) → String → Option α
  | [], _ => none
  | (k0, v0) :: rest, k => if k0 = k then some v0 else dictFind rest k

/-- Python `d.get(k, default)`. -/
def dictGet {α : Type} (l : List (String × α)) (k : String) (d : α) : α :=
  (dictFind l k).getD d

/-! ### Validators (`SimpleTriageOrchestrator.validate_*`) -/

structure ValidationResult where
  ok : Bool
  value : String
  error : String
deriving DecidableEq

/-- `validate_name`: strip whitespace then punctuation; reject when fewer
than two characters remain or any character is not a letter or whitespace
(the regex `^[a-zA-Z\s]+$`); on success title-case the words. -/
def validate_name (response : String) : ValidationResult :=
  let cleaned := stripPunct (pyStrip response.toList)
  if cleaned.length < 2 then
    ⟨false, cleaned.asString, "Please provide a name with at least 2 characters."⟩
  else if !(cleaned.all fun c => isAsciiLetter c || isPySpace c) then
    ⟨false, cleaned.asString, "Please provide a name using only letters."⟩
  else
    ⟨true, (List.intercalate [' '] ((pySplit cleaned).map pyCapitalize)).asString, ""⟩

/-- `validate_age`: take the first digit run; reject when none exists or the
parsed value exceeds 150 (the parsed value is a digit string, hence never
negative, so the source check `0 <= age <= 150` reduces to the upper bound);
the normalized value is `str(age)`. -/
def validate_age (response : String) : ValidationResult :=
  match firstDigitRun response.toList with
  | none => ⟨false, response, "Please provide your age as a number."⟩
  | some ds =>
    let age := digitsToNat ds
    if age ≤ 150 then ⟨true, Nat.repr age, ""⟩
    else ⟨false, response, "Please provide an age between 0 and 150."⟩

/-- `validate_gender`: case-insensitive substring matching with the source
branch order (female, then male-and-not-female, then the other spellings). -/
def validate_gender (response : String) : ValidationResult :=
  let lower := pyStrip (pyLower response.toList)
  if hasSub "female".toList lower then ⟨true, "Female", ""⟩
  else if hasSub "male".toList lower && !(hasSub "female".toList lower) then
    ⟨true, "Male", ""⟩
  else if ["other", "non-binary", "nonbinary"].any (fun w => hasSub w.toList lower) then
    ⟨true, "Other", ""⟩
  else ⟨false, response, "Please say \x27male\x27, \x27female\x27, or \x27other\x27."⟩

/-- `validate_symptoms`: reject when the trimmed text is shorter than 10
characters, else accept the trimmed text verbatim. -/
def validate_symptoms (response : String) : ValidationResult :=
  let cleaned := pyStrip response.toList
  if cleaned.length < 10 then
    ⟨false, cleaned.asString, "Please describe your symptoms in more detail."⟩
  else ⟨true, cleaned.asString, ""⟩

def positive_words : List String := ["yes", "yeah", "yep", "yup", "sure", "definitely"]

def negative_words : List String := ["no", "nope", "nah", "not"]

/-- The cleaned text used by `validate_boolean`:
`re.sub(r'[.,!?;:]', '', response.lower().strip())`. -/
def boolCleaned (response : String) : List Char :=
  stripPunct (pyStrip (pyLower response.toList))

/-- `validate_boolean`: positive-word substring scan first, then
negative-word scan, else reject. -/
def validate_boolean (response : String) : ValidationResult :=
  let cleaned := boolCleaned response
  if positive_words.any (fun w => hasSub w.toList cleaned) then ⟨true, "Yes", ""⟩
  else if negative_words.any (fun w => hasSub w.toList cleaned) then ⟨true, "No", ""⟩
  else ⟨false, response, "Please answer with \x27yes\x27 or \x27no\x27."⟩

/-! ### Question catalog (`SimpleTriageOrchestrator.QUESTIONS`) -/

structure Question where
  id : String
  text : String
  qtype : String
  validator : String
deriving DecidableEq

def QUESTIONS : List Question :=
  [⟨"name",
    "Hi, I\x27m your AI emergency room triage assistant. I\x27m here to help you today and assess your condition. Let\x27s start - what is your name?",
    "text", "validate_name"⟩,
   ⟨"age", "What is your age?", "number", "validate_age"⟩,
   ⟨"gender", "What is your gender? Please say male, female, or other.",
    "text", "validate_gender"⟩,
   ⟨"symptoms", "Please describe your main symptoms and what brought you here today.",
    "text", "validate_symptoms"⟩,
   ⟨"bleeding", "Are you currently bleeding from any wounds? Please answer yes or no.",
    "boolean", "validate_boolean"⟩,
   ⟨"breathing", "Are you having trouble breathing? Please answer yes or no.",
    "boolean", "validate_boolean"⟩,
   ⟨"chest_pain", "Are you experiencing chest pain? Please answer yes or no.",
    "boolean", "validate_boolean"⟩,
   ⟨"mobility", "Are you able to walk without assistance? Please answer yes or no.",
    "boolean", "validate_boolean"⟩]

/-- The `getattr(self, question["validator"])` dispatch: lookup of the
validator by its string name (every catalog entry names an existing one). -/
def runValidator (vname : String) (response : String) : ValidationResult :=
  if vname = "validate_name" then validate_name response
  else if vname = "validate_age" then validate_age response
  else if vname = "validate_gender" then validate_gender response
  else if vname = "validate_symptoms" then validate_symptoms response
  else if vname = "validate_boolean" then validate_boolean response
  else ⟨false, response, ""⟩

/-! ### Session state (`TriageSession`) -/

structure TriageSession where
  session_id : String
  current_question_index : Nat
  responses : List (String × String)
  is_complete : Bool
  name : Option String
  age : Option Nat
  gender : Option String
  chief_complaint : Option String
  emergency_responses : List (String × Bool)
deriving DecidableEq

/-- `TriageSession.__init__`: position 0, no responses, not complete, no
derived fields (timestamps are not modelled; no claim mentions them). -/
def TriageSession.init (session_id : String) : TriageSession :=
  ⟨session_id, 0, [], false, none, none, none, none, []⟩

/-- `_update_patient_data`: the fixed per-question derived-field update. -/
def update_patient_data (s : TriageSession) (question_id value : String) : TriageSession :=
  if question_id = "name" then { s with name := some value }
  else if question_id = "age" then { s with age := some (digitsToNat value.toList) }
  else if question_id = "gender" then { s with gender := some value }
  else if question_id = "symptoms" then { s with chief_complaint := some value }
  else if ["bleeding", "breathing", "chest_pain", "mobility"].contains question_id then
    { s with emergency_responses :=
        dictSet s.emergency_responses question_id (pyLower value.toList == "yes".toList) }
  else s

/-! ### Urgency scorer (`_calculate_urgency`) and priority mapping -/

/-- `_calculate_urgency` in exact rational arithmetic: additive score over
the emergency answers (mobility has inverted polarity and defaults to
`True`), plus the age factor guarded by Python truthiness
(`if session.age:`), capped at 1.0. This idealizes the decimal literals and
sums as exact rationals; `calculate_urgency_fp` below is the bit-faithful
binary64 model of the same code, and the idealization is relied on only
where the two observably coincide. -/
def calculate_urgency (s : TriageSession) : ℚ :=
  let score : ℚ := 0.3
  let score := if dictGet s.emergency_responses "bleeding" false then score + 0.4 else score
  let score := if dictGet s.emergency_responses "breathing" false then score + 0.4 else score
  let score := if dictGet s.emergency_responses "chest_pain" false then score + 0.3 else score
  let score := if !(dictGet s.emergency_responses "mobility" true) then score + 0.3 else score
  let score :=
    match s.age with
    | none => score
    | some a =>
      if a ≠ 0 then
        if a > 65 then score + 0.1
        else if a < 5 then score + 0.2
        else score
      else score
  min score 1.0

/-! ### Binary64 model of the float arithmetic

CPython computes `_calculate_urgency` on IEEE-754 binary64 values: each
decimal literal denotes the nearest binary64 number and every `+=` rounds
its exact result back to 53 significant bits (round to nearest, ties to
even). A binary64 number is represented below by the rational it denotes
exactly; no overflow, underflow or subnormal handling is needed because
every value this program computes lies far inside the normal range and is
positive. -/

/-- Round a rational to the nearest integer, ties to even. -/
def roundHalfEven (q : ℚ) : ℤ :=
  if q - ⌊q⌋ < 1 / 2 then ⌊q⌋
  else if 1 / 2 < q - ⌊q⌋ then ⌊q⌋ + 1
  else if ⌊q⌋ % 2 = 0 then ⌊q⌋ else ⌊q⌋ + 1

/-- The IEEE-754 binary64 rounding of a nonnegative rational: the 53-bit
significand rounded to nearest, ties to even. -/
def fl (x : ℚ) : ℚ :=
  if x ≤ 0 then 0
  else (roundHalfEven (x / 2 ^ (Int.log 2 x - 52)) : ℚ) * 2 ^ (Int.log 2 x - 52)

/-- IEEE-754 binary64 addition: the exact sum, correctly rounded. -/
def fpAdd (x y : ℚ) : ℚ := fl (x + y)

/-- `_calculate_urgency` with the float semantics made explicit: the
constants are the binary64 values of the decimal literals and every `+=`
rounds its result to binary64 (`min` compares and selects exactly). -/
def calculate_urgency_fp (s : TriageSession) : ℚ :=
  let score : ℚ := fl 0.3
  let score := if dictGet s.emergency_responses "bleeding" false then fpAdd score (fl 0.4) else score
  let score := if dictGet s.emergency_responses "breathing" false then fpAdd score (fl 0.4) else score
  let score := if dictGet s.emergency_responses "chest_pain" false then fpAdd score (fl 0.3) else score
  let score := if !(dictGet s.emergency_responses "mobility" true) then fpAdd score (fl 0.3) else score
  let score :=
    match s.age with
    | none => score
    | some a =>
      if a ≠ 0 then
        if a > 65 then fpAdd score (fl 0.1)
        else if a < 5 then fpAdd score (fl 0.2)
        else score
      else score
  min score (fl 1.0)

inductive TriageLevel where
  | RESUSCITATION
  | EMERGENT
  | URGENT
  | LESS_URGENT
  | NON_URGENT
deriving DecidableEq

/-- `int(triage_level)` on the `IntEnum`. -/
def TriageLevel.toInt : TriageLevel → Nat
  | .RESUSCITATION => 1
  | .EMERGENT => 2
  | .URGENT => 3
  | .LESS_URGENT => 4
  | .NON_URGENT => 5

/-- The urgency-to-level chain at the head of `_create_patient_record`. -/
def triage_level_of_score (urgency_score : ℚ) : TriageLevel :=
  if urgency_score ≥ 0.8 then .RESUSCITATION
  else if urgency_score ≥ 0.6 then .EMERGENT
  else if urgency_score ≥ 0.4 then .URGENT
  else if urgency_score ≥ 0.2 then .LESS_URGENT
  else .NON_URGENT

/-- The same threshold chain with the binary64 values of the literal
thresholds (an IEEE comparison of two binary64 numbers coincides with the
rational comparison of their exact values). -/
def triage_level_of_score_fp (urgency_score : ℚ) : TriageLevel :=
  if urgency_score ≥ fl 0.8 then .RESUSCITATION
  else if urgency_score ≥ fl 0.6 then .EMERGENT
  else if urgency_score ≥ fl 0.4 then .URGENT
  else if urgency_score ≥ fl 0.2 then .LESS_URGENT
  else .NON_URGENT

structure Vitals where
  heartRate : Nat
  respiratoryRate : Nat
  painLevel : Nat
deriving DecidableEq

structure Patient where
  id : String
  name : String
  age : Nat
  gender : String
  chiefComplaint : String
  vitals : Vitals
  triageLevel : TriageLevel
deriving DecidableEq

/-- Python `session.name or "Unknown"`: the default replaces both a missing
and a falsy (empty) value. -/
def orDefault (v : Option String) (d : String) : String :=
  match v with
  | some s => if s = "" then d else s
  | none => d

/-- `_create_patient_record`: build the record fields from the session and
submit them to the persistence collaborator, modelled by `newId` (the id the
collaborator would allocate on this attempt, or `none` on failure). -/
def create_patient_record (s : TriageSession) (urgency_score : ℚ)
    (newId : Option String) : Option Patient :=
  let triage_level := triage_level_of_score urgency_score
  match newId with
  | none => none
  | some pid =>
    some ⟨pid, orDefault s.name "Unknown", s.age.getD 0, orDefault s.gender "Other",
      orDefault s.chief_complaint "No symptoms provided", ⟨80, 16, 5⟩, triage_level⟩

/-! ### Completion with retry (`_complete_assessment`) -/

def max_retries : Nat := 3

structure RetryOutcome where
  patient : Option Patient
  attempts : Nat
  sleeps : List ℚ
deriving DecidableEq

/-- The `for attempt in range(max_retries)` loop: attempt the creation,
break on success, sleep 0.5 between failed attempts, give up after the last
one. `attempts` counts creation calls; `sleeps` records the requested
delays. -/
def retryLoop (create : Nat → Option Patient) : List Nat → RetryOutcome
  | [] => ⟨none, 0, []⟩
  | a :: rest =>
    match create a with
    | some p => ⟨some p, 1, []⟩
    | none =>
      if rest.isEmpty then ⟨none, 1, []⟩
      else
        let r := retryLoop create rest
        ⟨r.patient, r.attempts + 1, 0.5 :: r.sleeps⟩

def priority_name (level : Nat) : String :=
  if level = 1 then "Critical (Level 1)"
  else if level = 2 then "Emergent (Level 2)"
  else if level = 3 then "Urgent (Level 3)"
  else if level = 4 then "Less Urgent (Level 4)"
  else if level = 5 then "Non-Urgent (Level 5)"
  else "Level " ++ Nat.repr level

/-- The shapes of the dicts returned by `process_voice_response` and
`_complete_assessment`. -/
inductive StepResult where
  | question (question : String) (question_id : String) (step : Nat)
      (total_steps : Nat) (user_answer : Option String) (previous_field : Option String)
  | retryError (question : String) (question_id : String) (step : Nat)
      (total_steps : Nat) (error : String) (user_answer : String)
  | complete (message : String) (patient_id : String) (urgency_score : ℚ)
      (triage_level : Nat) (step : Nat) (total_steps : Nat)
      (user_answer : Option String) (previous_field : Option String)
  | failure (message : String) (step : Nat) (total_steps : Nat)
deriving DecidableEq

def StepResult.isCompleteResult : StepResult → Bool
  | .complete _ _ _ _ _ _ _ _ => true
  | _ => false

def StepResult.isFailure : StepResult → Bool
  | .failure _ _ _ => true
  | _ => false

/-- The urgency score carried by a completion result. -/
def StepResult.urgencyOf : StepResult → Option ℚ
  | .complete _ _ u _ _ _ _ _ => some u
  | _ => none

structure StepOutcome where
  result : StepResult
  session : TriageSession
  attempts : Nat
  sleeps : List ℚ
deriving DecidableEq

/-- `_complete_assessment`: score the session, retry record creation up to
`max_retries` times; on success mark the session complete and return the
completion summary; on exhaustion return the error dict and leave the
session unchanged. `createId` models the persistence collaborator per
attempt number. -/
def complete_assessment (createId : Nat → Option String) (s : TriageSession)
    (last_answer : Option String) (last_field : Option String) : StepOutcome :=
  let urgency_score := calculate_urgency s
  let r := retryLoop (fun k => create_patient_record s urgency_score (createId k))
    (List.range max_retries)
  match r.patient with
  | some p =>
    ⟨.complete
        ("Assessment complete! You have been assigned " ++ priority_name p.triageLevel.toInt
          ++ " priority and added to the queue. A nurse will see you shortly.")
        p.id urgency_score p.triageLevel.toInt QUESTIONS.length QUESTIONS.length
        last_answer last_field,
      { s with is_complete := true }, r.attempts, r.sleeps⟩
  | none =>
    ⟨.failure
        "Sorry, there was an issue completing your assessment. Please try again or see the front desk."
        QUESTIONS.length QUESTIONS.length,
      s, r.attempts, r.sleeps⟩

/-! ### The submit-answer step (`process_voice_response`, session found) -/

def defaultQuestion : Question := ⟨"", "", "", ""⟩

/-- The catalog entry at the session position. -/
def currentQuestion (s : TriageSession) : Question :=
  QUESTIONS.getD s.current_question_index defaultQuestion

/-- `process_voice_response` on a looked-up session: index-exhausted guard,
validation, repeat-on-error, store-and-advance, completion. -/
def process_voice_response (createId : Nat → Option String) (s : TriageSession)
    (transcript : String) : StepOutcome :=
  if QUESTIONS.length ≤ s.current_question_index then
    complete_assessment createId s none none
  else
    let q := currentQuestion s
    let v := runValidator q.validator transcript
    if v.ok = false then
      ⟨.retryError (v.error ++ " " ++ q.text) q.id (s.current_question_index + 1)
          QUESTIONS.length v.error transcript,
        s, 0, []⟩
    else
      let s1 := { s with responses := dictSet s.responses q.id v.value }
      let s2 := update_patient_data s1 q.id v.value
      let s3 := { s2 with current_question_index := s2.current_question_index + 1 }
      if QUESTIONS.length ≤ s3.current_question_index then
        complete_assessment createId s3 (some v.value) (some q.id)
      else
        let nq := QUESTIONS.getD s3.current_question_index defaultQuestion
        ⟨.question nq.text nq.id (s3.current_question_index + 1) QUESTIONS.length
            (some v.value) (some q.id),
          s3, 0, []⟩

/-! ### Orchestrator session table (`start_session`) -/

structure Orchestrator where
  active_sessions : List (String × TriageSession)
deriving DecidableEq

/-- `start_session`: unconditionally bind the id to a fresh session and
return the first question. -/
def start_session (o : Orchestrator) (session_id : String) : Orchestrator × StepResult :=
  let s := TriageSession.init session_id
  ({ active_sessions := dictSet o.active_sessions session_id s },
    .question (QUESTIONS.getD 0 defaultQuestion).text "name" 1 QUESTIONS.length none none)

/-! ### AI-summary response cache (`AISummaryCache`) -/

/-- A summary-request payload: field name to value. Field order is the
insertion order and may differ between logically identical payloads. -/
abbrev Payload := List (String × String)

/-- `json.dumps(data, sort_keys=True)` followed by `md5`: the key is the
payload with fields brought into sorted key order (the hash is modelled by
the canonical serialization itself). -/
def canonical_key (data : Payload) : Payload :=
  data.insertionSort (fun p q => p.1 ≤ q.1)

structure CacheEntry where
  summary : String
  timestamp : ℚ
deriving DecidableEq

/-- The cache dict, modelled as a partial map so that eviction is
observable. -/
structure AISummaryCache where
  cache : Payload → Option CacheEntry

/-- `30 * 60  # 30 minutes in seconds` -/
def cache_duration : ℚ := 30 * 60

def AISummaryCache.empty : AISummaryCache := ⟨fun _ => none⟩

/-- `AISummaryCache.set`: store the summary under the canonical key with the
current timestamp. -/
def AISummaryCache.set (c : AISummaryCache) (now : ℚ) (data : Payload)
    (summary : String) : AISummaryCache :=
  let key := canonical_key data
  ⟨fun k => if k = key then some ⟨summary, now⟩ else c.cache k⟩

structure CacheGetResult where
  value : Option String
  after : AISummaryCache

/-- `AISummaryCache.get`: a hit within the duration window returns the
summary; an expired entry is deleted (lazy eviction) and reported absent. -/
def AISummaryCache.get (c : AISummaryCache) (now : ℚ) (data : Payload) : CacheGetResult :=
  let key := canonical_key data
  match c.cache key with
  | some entry =>
    if now - entry.timestamp < cache_duration then ⟨some entry.summary, c⟩
    else ⟨none, ⟨fun k => if k = key then none else c.cache k⟩⟩
  | none => ⟨none, c⟩

/-! ### Concrete material shared by the theorems -/

/-- A persistence collaborator that fails every attempt. -/
def failingCreate : Nat → Option String := fun _ => none

/-- A persistence collaborator that succeeds immediately. -/
def okCreate : Nat → Option String := fun _ => some "patient-1"

/-- The end-to-end interview of the specification scenario. -/
def demoTranscripts : List String :=
  ["John Smith", "45", "male", "I have severe chest pain radiating to my arm",
   "no", "yes", "yes", "no"]

/-- Feed a sequence of transcripts through `process_voice_response`. -/
def runTranscripts (createId : Nat → Option String) (s : TriageSession) :
    List String → TriageSession
  | [] => s
  | t :: ts => runTranscripts createId (process_voice_response createId s t).session ts

/-- A session that answered all 8 questions but whose record creation failed
on all three attempts. -/
def stuckSession : TriageSession :=
  runTranscripts failingCreate (TriageSession.init "s-fail") demoTranscripts

/-- A fully answered session of a newborn (age 0) with every emergency
answer in the non-urgent direction. -/
def infantSession : TriageSession :=
  { session_id := "s-infant", current_question_index := 8,
    responses := [], is_complete := false, name := some "Baby Roe", age := some 0,
    gender := some "Other", chief_complaint := some "persistent crying for hours",
    emergency_responses :=
      [("bleeding", false), ("breathing", false), ("chest_pain", false), ("mobility", true)] }

/-- A fully answered session of a 70-year-old with every emergency answer in
the non-urgent direction: score 0.3 + 0.1 = 0.4 exactly. -/
def elderSession : TriageSession :=
  { session_id := "s-elder", current_question_index := 8,
    responses := [], is_complete := false, name := some "Rosa Lee", age := some 70,
    gender := some "Female", chief_complaint := some "mild wrist pain after a fall",
    emergency_responses :=
      [("bleeding", false), ("breathing", false), ("chest_pain", false), ("mobility", true)] }

/-- The urgency formula exactly as the specification words it: the 0.2 bump
applies to every age below 5. Modelled from the spec for comparison with the
source scorer. -/
def claimed_urgency (bleeding breathing chest_pain mobility : Bool) (age : Nat) : ℚ :=
  min (0.3 + (if bleeding then 0.4 else 0) + (if breathing then 0.4 else 0)
    + (if chest_pain then 0.3 else 0) + (if mobility = false then 0.3 else 0)
    + (if 65 < age then 0.1 else 0) + (if age < 5 then 0.2 else 0)) 1.0

/-- The amended urgency formula: the same additive model, with the
contributions applied in the fixed source order at binary64 precision, and
the age bumps only for a present, nonzero age. -/
def claimed_urgency_fp (bleeding breathing chest_pain mobility : Bool) (age : Nat) : ℚ :=
  let s := fl 0.3
  let s := if bleeding then fpAdd s (fl 0.4) else s
  let s := if breathing then fpAdd s (fl 0.4) else s
  let s := if chest_pain then fpAdd s (fl 0.3) else s
  let s := if mobility = false then fpAdd s (fl 0.3) else s
  let s :=
    if 65 < age then fpAdd s (fl 0.1)
    else if 0 < age ∧ age < 5 then fpAdd s (fl 0.2)
    else s
  min s (fl 1.0)

/-- A fully answered session of a 70-year-old whose only urgent answer is
bleeding: the program sums 0.3 + 0.4 + 0.1 in binary64, giving
0.7999999999999999 rather than the exact 0.8. -/
def bleederElderSession : TriageSession :=
  { session_id := "s-bleeder", current_question_index := 8,
    responses := [], is_complete := false, name := some "Ira Gold", age := some 70,
    gender := some "Male", chief_complaint := some "deep cut on the left hand",
    emergency_responses :=
      [("bleeding", true), ("breathing", false), ("chest_pain", false), ("mobility", true)] }

/-- The specification clamp scenario: every flag in the urgent direction
and age 70; the binary64 running sum exceeds 1 and the final `min` clamps
it to exactly 1.0. -/
def allFlagsElderSession : TriageSession :=
  { session_id := "s-allflags", current_question_index := 8,
    responses := [], is_complete := false, name := some "Lee Cross", age := some 70,
    gender := some "Other", chief_complaint := some "collapsed and bleeding heavily",
    emergency_responses :=
      [("bleeding", true), ("breathing", true), ("chest_pain", true), ("mobility", false)] }

/-! ### Helper lemmas -/

lemma dictFind_dictSet_self {α : Type} (l : List (String × α)) (k : String) (v : α) :
    dictFind (dictSet l k v) k = some v := by
  induction l with
  | nil => simp [dictSet, dictFind]
  | cons p rest ih =>
    rcases p with ⟨k0, v0⟩
    by_cases h : k0 = k <;> simp [dictSet, dictFind, h, ih]

lemma level_eq_one_iff (u : ℚ) : triage_level_of_score u = .RESUSCITATION ↔ 0.8 ≤ u := by
  unfold triage_level_of_score
  split_ifs with h1 h2 h3 h4 <;> simp_all

lemma level_eq_two_iff (u : ℚ) : triage_level_of_score u = .EMERGENT ↔ 0.6 ≤ u ∧ u < 0.8 := by
  unfold triage_level_of_score
  split_ifs with h1 h2 h3 h4 <;> simp_all

lemma level_eq_three_iff (u : ℚ) : triage_level_of_score u = .URGENT ↔ 0.4 ≤ u ∧ u < 0.6 := by
  unfold triage_level_of_score
  split_ifs with h1 h2 h3 h4 <;> simp_all
  all_goals (intro h; linarith)

lemma level_eq_four_iff (u : ℚ) : triage_level_of_score u = .LESS_URGENT ↔ 0.2 ≤ u ∧ u < 0.4 := by
  unfold triage_level_of_score
  split_ifs with h1 h2 h3 h4 <;> simp_all
  all_goals (intro h; linarith)

lemma level_eq_five_iff (u : ℚ) : triage_level_of_score u = .NON_URGENT ↔ u < 0.2 := by
  unfold triage_level_of_score
  split_ifs with h1 h2 h3 h4 <;> simp_all
  all_goals linarith

lemma toInt_eq_one_iff (l : TriageLevel) : l.toInt = 1 ↔ l = .RESUSCITATION := by
  cases l <;> simp [TriageLevel.toInt]

lemma toInt_eq_two_iff (l : TriageLevel) : l.toInt = 2 ↔ l = .EMERGENT := by
  cases l <;> simp [TriageLevel.toInt]

lemma toInt_eq_three_iff (l : TriageLevel) : l.toInt = 3 ↔ l = .URGENT := by
  cases l <;> simp [TriageLevel.toInt]

lemma toInt_eq_four_iff (l : TriageLevel) : l.toInt = 4 ↔ l = .LESS_URGENT := by
  cases l <;> simp [TriageLevel.toInt]

lemma toInt_eq_five_iff (l : TriageLevel) : l.toInt = 5 ↔ l = .NON_URGENT := by
  cases l <;> simp [TriageLevel.toInt]

lemma calculate_urgency_elder : calculate_urgency elderSession = 0.4 := by
  simp [calculate_urgency, elderSession, dictGet, dictFind]
  norm_num [min_def]

/-! ### Claim C2 -/

/-- C2: the priority level is exactly the first-match highest-to-lowest
half-open threshold mapping of the urgency score (1 on [0.8, ∞), 2 on
[0.6, 0.8), 3 on [0.4, 0.6), 4 on [0.2, 0.4), 5 below 0.2), and the
boundary score of exactly 0.4 — base 0.3 plus the 0.1 age bump, no
emergency flags — maps to priority level 3. -/
theorem c2_priority_thresholds (u : ℚ) :
    ((triage_level_of_score u).toInt = 1 ↔ 0.8 ≤ u) ∧
    ((triage_level_of_score u).toInt = 2 ↔ 0.6 ≤ u ∧ u < 0.8) ∧
    ((triage_level_of_score u).toInt = 3 ↔ 0.4 ≤ u ∧ u < 0.6) ∧
    ((triage_level_of_score u).toInt = 4 ↔ 0.2 ≤ u ∧ u < 0.4) ∧
    ((triage_level_of_score u).toInt = 5 ↔ u < 0.2) ∧
    calculate_urgency elderSession = 0.4 ∧
    (triage_level_of_score (calculate_urgency elderSession)).toInt = 3 := by
  refine ⟨?_, ?_, ?_, ?_, ?_, calculate_urgency_elder, ?_⟩
  · rw [toInt_eq_one_iff]; exact level_eq_one_iff u
  · rw [toInt_eq_two_iff]; exact level_eq_two_iff u
  · rw [toInt_eq_three_iff]; exact level_eq_three_iff u
  · rw [toInt_eq_four_iff]; exact level_eq_four_iff u
  · rw [toInt_eq_five_iff]; exact level_eq_five_iff u
  · rw [calculate_urgency_elder, toInt_eq_three_iff, level_eq_three_iff]
    norm_num

/-! ### Evaluation lemmas for the binary64 model -/

lemma log2_eq {x : ℚ} {n : ℤ} (hx : 0 < x)
    (h1 : (2 : ℚ) ^ n ≤ x) (h2 : x < (2 : ℚ) ^ (n + 1)) :
    Int.log 2 x = n := by
  have hl1 : ((2 : ℕ) : ℚ) ^ (Int.log 2 x) ≤ x := Int.zpow_log_le_self (by norm_num) hx
  have hl2 : x < ((2 : ℕ) : ℚ) ^ (Int.log 2 x + 1) := Int.lt_zpow_succ_log_self (by norm_num) x
  norm_num at hl1 hl2
  have ha : n < Int.log 2 x + 1 :=
    (zpow_lt_zpow_iff_right₀ (by norm_num : (1 : ℚ) < 2)).mp (lt_of_le_of_lt h1 hl2)
  have hb : Int.log 2 x < n + 1 :=
    (zpow_lt_zpow_iff_right₀ (by norm_num : (1 : ℚ) < 2)).mp (lt_of_le_of_lt hl1 h2)
  omega

lemma fl_eval_down {x : ℚ} {n f : ℤ} (hx : 0 < x)
    (h1 : (2 : ℚ) ^ n ≤ x) (h2 : x < (2 : ℚ) ^ (n + 1))
    (hf : ⌊x / (2 : ℚ) ^ (n - 52)⌋ = f) (hfr : x / (2 : ℚ) ^ (n - 52) - f < 1 / 2) :
    fl x = f * (2 : ℚ) ^ (n - 52) := by
  unfold fl roundHalfEven
  rw [if_neg (not_le.mpr hx), log2_eq hx h1 h2, hf, if_pos hfr]

lemma fl_eval_up {x : ℚ} {n f : ℤ} (hx : 0 < x)
    (h1 : (2 : ℚ) ^ n ≤ x) (h2 : x < (2 : ℚ) ^ (n + 1))
    (hf : ⌊x / (2 : ℚ) ^ (n - 52)⌋ = f) (hfr : 1 / 2 < x / (2 : ℚ) ^ (n - 52) - f) :
    fl x = (f + 1) * (2 : ℚ) ^ (n - 52) := by
  unfold fl roundHalfEven
  rw [if_neg (not_le.mpr hx), log2_eq hx h1 h2, hf, if_neg (by linarith), if_pos hfr]
  push_cast
  ring

lemma fl_eval_tie_even {x : ℚ} {n f : ℤ} (hx : 0 < x)
    (h1 : (2 : ℚ) ^ n ≤ x) (h2 : x < (2 : ℚ) ^ (n + 1))
    (hf : ⌊x / (2 : ℚ) ^ (n - 52)⌋ = f) (hfr : x / (2 : ℚ) ^ (n - 52) - f = 1 / 2)
    (hpar : f % 2 = 0) :
    fl x = f * (2 : ℚ) ^ (n - 52) := by
  unfold fl roundHalfEven
  rw [if_neg (not_le.mpr hx), log2_eq hx h1 h2, hf, if_neg (by rw [hfr]; norm_num),
    if_neg (by rw [hfr]; norm_num), if_pos hpar]

lemma fl_eval_tie_odd {x : ℚ} {n f : ℤ} (hx : 0 < x)
    (h1 : (2 : ℚ) ^ n ≤ x) (h2 : x < (2 : ℚ) ^ (n + 1))
    (hf : ⌊x / (2 : ℚ) ^ (n - 52)⌋ = f) (hfr : x / (2 : ℚ) ^ (n - 52) - f = 1 / 2)
    (hpar : f % 2 = 1) :
    fl x = (f + 1) * (2 : ℚ) ^ (n - 52) := by
  unfold fl roundHalfEven
  rw [if_neg (not_le.mpr hx), log2_eq hx h1 h2, hf, if_neg (by rw [hfr]; norm_num),
    if_neg (by rw [hfr]; norm_num), if_neg (by omega)]
  push_cast
  ring

lemma fl_03 : fl 0.3 = 5404319552844595 / 2 ^ 54 := by
  have h := fl_eval_down (x := 0.3) (n := -2) (f := 5404319552844595) (by norm_num)
    (by norm_num) (by norm_num) (Int.floor_eq_iff.mpr (by norm_num)) (by norm_num)
  rw [h]
  norm_num

lemma fl_04 : fl 0.4 = 3602879701896397 / 2 ^ 53 := by
  have h := fl_eval_up (x := 0.4) (n := -2) (f := 7205759403792793) (by norm_num)
    (by norm_num) (by norm_num) (Int.floor_eq_iff.mpr (by norm_num)) (by norm_num)
  rw [h]
  norm_num

lemma fl_01 : fl 0.1 = 3602879701896397 / 2 ^ 55 := by
  have h := fl_eval_up (x := 0.1) (n := -4) (f := 7205759403792793) (by norm_num)
    (by norm_num) (by norm_num) (Int.floor_eq_iff.mpr (by norm_num)) (by norm_num)
  rw [h]
  norm_num

lemma fl_02 : fl 0.2 = 3602879701896397 / 2 ^ 54 := by
  have h := fl_eval_up (x := 0.2) (n := -3) (f := 7205759403792793) (by norm_num)
    (by norm_num) (by norm_num) (Int.floor_eq_iff.mpr (by norm_num)) (by norm_num)
  rw [h]
  norm_num

lemma fl_06 : fl 0.6 = 5404319552844595 / 2 ^ 53 := by
  have h := fl_eval_down (x := 0.6) (n := -1) (f := 5404319552844595) (by norm_num)
    (by norm_num) (by norm_num) (Int.floor_eq_iff.mpr (by norm_num)) (by norm_num)
  rw [h]
  norm_num

lemma fl_08 : fl 0.8 = 3602879701896397 / 2 ^ 52 := by
  have h := fl_eval_up (x := 0.8) (n := -1) (f := 7205759403792793) (by norm_num)
    (by norm_num) (by norm_num) (Int.floor_eq_iff.mpr (by norm_num)) (by norm_num)
  rw [h]
  norm_num

lemma fl_one : fl 1.0 = 1 := by
  have h := fl_eval_down (x := 1.0) (n := 0) (f := 4503599627370496) (by norm_num)
    (by norm_num) (by norm_num) (Int.floor_eq_iff.mpr (by norm_num)) (by norm_num)
  rw [h]
  norm_num

lemma fpAdd_03_04 : fpAdd (fl 0.3) (fl 0.4) = 6305039478318694 / 2 ^ 53 := by
  unfold fpAdd
  rw [fl_03, fl_04,
    (by norm_num : (5404319552844595 / 2 ^ 54 + 3602879701896397 / 2 ^ 53 : ℚ)
      = 12610078956637389 / 2 ^ 54)]
  have h := fl_eval_tie_even (x := (12610078956637389 / 2 ^ 54 : ℚ)) (n := -1)
    (f := 6305039478318694) (by norm_num) (by norm_num) (by norm_num)
    (Int.floor_eq_iff.mpr (by norm_num)) (by norm_num) (by norm_num)
  rw [h]
  norm_num

lemma fpAdd_07_01 : fpAdd (6305039478318694 / 2 ^ 53) (fl 0.1) = 7205759403792793 / 2 ^ 53 := by
  unfold fpAdd
  rw [fl_01,
    (by norm_num : (6305039478318694 / 2 ^ 53 + 3602879701896397 / 2 ^ 55 : ℚ)
      = 28823037615171173 / 2 ^ 55)]
  have h := fl_eval_down (x := (28823037615171173 / 2 ^ 55 : ℚ)) (n := -1)
    (f := 7205759403792793) (by norm_num) (by norm_num) (by norm_num)
    (Int.floor_eq_iff.mpr (by norm_num)) (by norm_num)
  rw [h]
  norm_num

lemma fpAdd_07_04 : fpAdd (6305039478318694 / 2 ^ 53) (fl 0.4) = 4953959590107546 / 2 ^ 52 := by
  unfold fpAdd
  rw [fl_04,
    (by norm_num : (6305039478318694 / 2 ^ 53 + 3602879701896397 / 2 ^ 53 : ℚ)
      = 9907919180215091 / 2 ^ 53)]
  have h := fl_eval_tie_odd (x := (9907919180215091 / 2 ^ 53 : ℚ)) (n := 0)
    (f := 4953959590107545) (by norm_num) (by norm_num) (by norm_num)
    (Int.floor_eq_iff.mpr (by norm_num)) (by norm_num) (by norm_num)
  rw [h]
  norm_num

lemma fpAdd_11_03 : fpAdd (4953959590107546 / 2 ^ 52) (fl 0.3) = 6305039478318695 / 2 ^ 52 := by
  unfold fpAdd
  rw [fl_03,
    (by norm_num : (4953959590107546 / 2 ^ 52 + 5404319552844595 / 2 ^ 54 : ℚ)
      = 25220157913274779 / 2 ^ 54)]
  have h := fl_eval_up (x := (25220157913274779 / 2 ^ 54 : ℚ)) (n := 0)
    (f := 6305039478318694) (by norm_num) (by norm_num) (by norm_num)
    (Int.floor_eq_iff.mpr (by norm_num)) (by norm_num)
  rw [h]
  norm_num

lemma fpAdd_14_03 : fpAdd (6305039478318695 / 2 ^ 52) (fl 0.3) = 7656119366529844 / 2 ^ 52 := by
  unfold fpAdd
  rw [fl_03,
    (by norm_num : (6305039478318695 / 2 ^ 52 + 5404319552844595 / 2 ^ 54 : ℚ)
      = 30624477466119375 / 2 ^ 54)]
  have h := fl_eval_up (x := (30624477466119375 / 2 ^ 54 : ℚ)) (n := 0)
    (f := 7656119366529843) (by norm_num) (by norm_num) (by norm_num)
    (Int.floor_eq_iff.mpr (by norm_num)) (by norm_num)
  rw [h]
  norm_num

lemma fpAdd_17_01 : fpAdd (7656119366529844 / 2 ^ 52) (fl 0.1) = 8106479329266894 / 2 ^ 52 := by
  unfold fpAdd
  rw [fl_01,
    (by norm_num : (7656119366529844 / 2 ^ 52 + 3602879701896397 / 2 ^ 55 : ℚ)
      = 64851834634135149 / 2 ^ 55)]
  have h := fl_eval_up (x := (64851834634135149 / 2 ^ 55 : ℚ)) (n := 0)
    (f := 8106479329266893) (by norm_num) (by norm_num) (by norm_num)
    (Int.floor_eq_iff.mpr (by norm_num)) (by norm_num)
  rw [h]
  norm_num

lemma fpAdd_03_01 : fpAdd (fl 0.3) (fl 0.1) = 3602879701896397 / 2 ^ 53 := by
  unfold fpAdd
  rw [fl_03, fl_01,
    (by norm_num : (5404319552844595 / 2 ^ 54 + 3602879701896397 / 2 ^ 55 : ℚ)
      = 14411518807585587 / 2 ^ 55)]
  have h := fl_eval_tie_odd (x := (14411518807585587 / 2 ^ 55 : ℚ)) (n := -2)
    (f := 7205759403792793) (by norm_num) (by norm_num) (by norm_num)
    (Int.floor_eq_iff.mpr (by norm_num)) (by norm_num) (by norm_num)
  rw [h]
  norm_num

lemma calc_fp_infant : calculate_urgency_fp infantSession = 5404319552844595 / 2 ^ 54 := by
  have hred : calculate_urgency_fp infantSession = min (fl 0.3) (fl 1.0) := by
    simp [calculate_urgency_fp, infantSession, dictGet, dictFind]
  rw [hred, fl_03, fl_one, min_eq_left (by norm_num)]

lemma calc_fp_bleederElder :
    calculate_urgency_fp bleederElderSession = 7205759403792793 / 2 ^ 53 := by
  have hred : calculate_urgency_fp bleederElderSession
      = min (fpAdd (fpAdd (fl 0.3) (fl 0.4)) (fl 0.1)) (fl 1.0) := by
    simp [calculate_urgency_fp, bleederElderSession, dictGet, dictFind]
  rw [hred, fpAdd_03_04, fpAdd_07_01, fl_one, min_eq_left (by norm_num)]

lemma calc_fp_allFlagsElder : calculate_urgency_fp allFlagsElderSession = 1 := by
  have hred : calculate_urgency_fp allFlagsElderSession
      = min (fpAdd (fpAdd (fpAdd (fpAdd (fpAdd (fl 0.3) (fl 0.4)) (fl 0.4)) (fl 0.3)) (fl 0.3))
          (fl 0.1)) (fl 1.0) := by
    simp [calculate_urgency_fp, allFlagsElderSession, dictGet, dictFind]
  rw [hred, fpAdd_03_04, fpAdd_07_04, fpAdd_11_03, fpAdd_14_03, fpAdd_17_01, fl_one,
    min_eq_right (by norm_num)]

lemma calc_fp_elder : calculate_urgency_fp elderSession = 3602879701896397 / 2 ^ 53 := by
  have hred : calculate_urgency_fp elderSession = min (fpAdd (fl 0.3) (fl 0.1)) (fl 1.0) := by
    simp [calculate_urgency_fp, elderSession, dictGet, dictFind]
  rw [hred, fpAdd_03_01, fl_one, min_eq_left (by norm_num)]

lemma level_fp_bleederElder :
    (triage_level_of_score_fp (7205759403792793 / 2 ^ 53)).toInt = 2 := by
  unfold triage_level_of_score_fp
  rw [fl_08, fl_06, if_neg (by norm_num), if_pos (by norm_num)]
  rfl

lemma level_fp_one : (triage_level_of_score_fp 1).toInt = 1 := by
  unfold triage_level_of_score_fp
  rw [fl_08, if_pos (by norm_num)]
  rfl

lemma level_fp_elder : (triage_level_of_score_fp (3602879701896397 / 2 ^ 53)).toInt = 3 := by
  unfold triage_level_of_score_fp
  rw [fl_08, fl_06, fl_04, if_neg (by norm_num), if_neg (by norm_num), if_pos (by norm_num)]
  rfl

/-! ### Claim C1 -/

/-- C1 counterexample: the claimed exact-decimal formula fails on the
program at two concrete inputs. A recorded age of 0: the source guard
`if session.age:` is Python truthiness, so the newborn session gets no
under-5 bump and scores the binary64 0.3 (5404319552844595/2^54), not the
claimed 0.5. And binary64 rounding: with bleeding the only urgent answer
and age 70, the program sums 0.3 + 0.4 + 0.1 in doubles, giving
0.7999999999999999 (7205759403792793/2^53) — not the claimed exact 0.8 —
and the very next pipeline stage buckets that score as priority level 2
(it fails the >= 0.8 test against the binary64 0.8) where the claimed
exact 0.8 would be level 1. -/
theorem c1_urgency_counterexample :
    infantSession.age = some 0 ∧
    dictFind infantSession.emergency_responses "bleeding" = some false ∧
    dictFind infantSession.emergency_responses "breathing" = some false ∧
    dictFind infantSession.emergency_responses "chest_pain" = some false ∧
    dictFind infantSession.emergency_responses "mobility" = some true ∧
    claimed_urgency false false false true 0 = 0.5 ∧
    calculate_urgency_fp infantSession = 5404319552844595 / 2 ^ 54 ∧
    calculate_urgency_fp infantSession ≠ claimed_urgency false false false true 0 ∧
    bleederElderSession.age = some 70 ∧
    dictFind bleederElderSession.emergency_responses "bleeding" = some true ∧
    dictFind bleederElderSession.emergency_responses "breathing" = some false ∧
    dictFind bleederElderSession.emergency_responses "chest_pain" = some false ∧
    dictFind bleederElderSession.emergency_responses "mobility" = some true ∧
    claimed_urgency true false false true 70 = 0.8 ∧
    calculate_urgency_fp bleederElderSession = 7205759403792793 / 2 ^ 53 ∧
    calculate_urgency_fp bleederElderSession ≠ claimed_urgency true false false true 70 ∧
    calculate_urgency_fp bleederElderSession < 0.8 ∧
    (triage_level_of_score_fp (calculate_urgency_fp bleederElderSession)).toInt = 2 := by
  have h1 : claimed_urgency false false false true 0 = 0.5 := by
    simp [claimed_urgency]
    norm_num [min_def]
  have h2 : claimed_urgency true false false true 70 = 0.8 := by
    simp [claimed_urgency]
    norm_num [min_def]
  refine ⟨rfl, by decide, by decide, by decide, by decide, h1, calc_fp_infant, ?_,
    rfl, by decide, by decide, by decide, by decide, h2, calc_fp_bleederElder, ?_, ?_, ?_⟩
  · rw [calc_fp_infant, h1]
    norm_num
  · rw [calc_fp_bleederElder, h2]
    norm_num
  · rw [calc_fp_bleederElder]
    norm_num
  · rw [calc_fp_bleederElder]
    exact level_fp_bleederElder

/-- C1 (amended): for every session with all four emergency flags and an
age recorded, the urgency score is the binary64 evaluation — the constants
are the binary64 values of the decimal literals and every addition is
correctly rounded, applied left to right in the source order — of: 0.3
base, +0.4 bleeding, +0.4 breathing difficulty, +0.3 chest pain, +0.3 when
mobility is false, then +0.1 when age exceeds 65 and +0.2 when the age is
below 5 and nonzero (Python truthiness of `session.age` skips the bump at
age 0), capped at 1.0. The rounded value can differ from the exact decimal
sum, but the specification clamp scenario (all flags urgent, age 70) still
clamps to exactly 1.0 and buckets as level 1, and the boundary scenario
(no flags, age 70) gives exactly the binary64 0.4 and buckets as level
3. -/
theorem c1_urgency_formula (s : TriageSession) (b br cp mob : Bool) (a : Nat)
    (hb : dictFind s.emergency_responses "bleeding" = some b)
    (hbr : dictFind s.emergency_responses "breathing" = some br)
    (hcp : dictFind s.emergency_responses "chest_pain" = some cp)
    (hmob : dictFind s.emergency_responses "mobility" = some mob)
    (ha : s.age = some a) :
    calculate_urgency_fp s = claimed_urgency_fp b br cp mob a ∧
    calculate_urgency_fp allFlagsElderSession = 1 ∧
    (triage_level_of_score_fp (calculate_urgency_fp allFlagsElderSession)).toInt = 1 ∧
    calculate_urgency_fp elderSession = 3602879701896397 / 2 ^ 53 ∧
    (triage_level_of_score_fp (calculate_urgency_fp elderSession)).toInt = 3 := by
  refine ⟨?_, calc_fp_allFlagsElder, ?_, calc_fp_elder, ?_⟩
  · unfold calculate_urgency_fp claimed_urgency_fp dictGet
    rw [hb, hbr, hcp, hmob, ha]
    rcases b <;> rcases br <;> rcases cp <;> rcases mob <;>
      simp only [Option.getD_some, Bool.not_true, Bool.not_false, if_true, if_false] <;>
      split_ifs <;> first | (exfalso; omega) | rfl
  · rw [calc_fp_allFlagsElder]
    exact level_fp_one
  · rw [calc_fp_elder]
    exact level_fp_elder

/-- C1 witness: the amended binary64 formula applied at the concrete
bleeding-only 70-year-old session. -/
theorem c1_urgency_formula_witness :
    calculate_urgency_fp bleederElderSession = claimed_urgency_fp true false false true 70 :=
  (c1_urgency_formula bleederElderSession true false false true 70
    (by decide) (by decide) (by decide) (by decide) rfl).1

/-! ### Helper lemmas for the state-machine claims -/

lemma update_patient_data_idx (s : TriageSession) (qid v : String) :
    (update_patient_data s qid v).current_question_index = s.current_question_index := by
  unfold update_patient_data
  split_ifs <;> simp

lemma update_patient_data_complete (s : TriageSession) (qid v : String) :
    (update_patient_data s qid v).is_complete = s.is_complete := by
  unfold update_patient_data
  split_ifs <;> simp

/-- The session after one accepted answer: the normalized value stored, the
derived field updated, the position advanced. -/
def answeredSession (s : TriageSession) (t : String) : TriageSession :=
  let q := currentQuestion s
  let v := runValidator q.validator t
  let s2 := update_patient_data { s with responses := dictSet s.responses q.id v.value } q.id v.value
  { s2 with current_question_index := s2.current_question_index + 1 }

lemma answeredSession_idx (s : TriageSession) (t : String) :
    (answeredSession s t).current_question_index = s.current_question_index + 1 := by
  simp [answeredSession, update_patient_data_idx]

lemma answeredSession_complete (s : TriageSession) (t : String) :
    (answeredSession s t).is_complete = s.is_complete := by
  simp [answeredSession, update_patient_data_complete]

lemma process_rejected_eq (createId : Nat → Option String) (s : TriageSession) (t : String)
    (hlt : ¬ QUESTIONS.length ≤ s.current_question_index)
    (hrej : (runValidator (currentQuestion s).validator t).ok = false) :
    process_voice_response createId s t =
      ⟨.retryError ((runValidator (currentQuestion s).validator t).error ++ " "
          ++ (currentQuestion s).text)
        (currentQuestion s).id (s.current_question_index + 1) QUESTIONS.length
        (runValidator (currentQuestion s).validator t).error t, s, 0, []⟩ := by
  unfold process_voice_response
  rw [if_neg hlt]
  dsimp only
  rw [hrej]
  simp

lemma process_accepted_eq (createId : Nat → Option String) (s : TriageSession) (t : String)
    (hlt : ¬ QUESTIONS.length ≤ s.current_question_index)
    (hok : (runValidator (currentQuestion s).validator t).ok = true) :
    process_voice_response createId s t =
      if QUESTIONS.length ≤ s.current_question_index + 1 then
        complete_assessment createId (answeredSession s t)
          (some (runValidator (currentQuestion s).validator t).value)
          (some (currentQuestion s).id)
      else
        ⟨.question (QUESTIONS.getD (s.current_question_index + 1) defaultQuestion).text
            (QUESTIONS.getD (s.current_question_index + 1) defaultQuestion).id
            (s.current_question_index + 1 + 1) QUESTIONS.length
            (some (runValidator (currentQuestion s).validator t).value)
            (some (currentQuestion s).id),
          answeredSession s t, 0, []⟩ := by
  unfold process_voice_response answeredSession
  rw [if_neg hlt]
  dsimp only
  rw [hok]
  simp [update_patient_data_idx]

lemma range_max_retries : List.range max_retries = [0, 1, 2] := rfl

lemma retryLoop_range3 (create : Nat → Option Patient) :
    retryLoop create (List.range max_retries) =
      match create 0 with
      | some p => ⟨some p, 1, []⟩
      | none =>
        match create 1 with
        | some p => ⟨some p, 2, [0.5]⟩
        | none =>
          match create 2 with
          | some p => ⟨some p, 3, [0.5, 0.5]⟩
          | none => ⟨none, 3, [0.5, 0.5]⟩ := by
  rw [range_max_retries]
  rcases h0 : create 0 with _ | p0 <;> rcases h1 : create 1 with _ | p1 <;>
    rcases h2 : create 2 with _ | p2 <;> simp [retryLoop, h0, h1, h2]

lemma retryLoop_attempts_le (create : Nat → Option Patient) :
    (retryLoop create (List.range max_retries)).attempts ≤ 3 := by
  rw [retryLoop_range3]
  rcases h0 : create 0 <;> rcases h1 : create 1 <;> rcases h2 : create 2 <;> simp

lemma complete_assessment_success (createId : Nat → Option String) (s : TriageSession)
    (la lf : Option String) (h : ∃ k, k < max_retries ∧ (createId k).isSome) :
    (complete_assessment createId s la lf).session = { s with is_complete := true } ∧
    (complete_assessment createId s la lf).result.isCompleteResult = true ∧
    (complete_assessment createId s la lf).result.urgencyOf = some (calculate_urgency s) := by
  obtain ⟨k, hk, hsome⟩ := h
  have hk3 : k = 0 ∨ k = 1 ∨ k = 2 := by
    have : max_retries = 3 := rfl
    omega
  have hp : (retryLoop (fun j => create_patient_record s (calculate_urgency s) (createId j))
      (List.range max_retries)).patient.isSome := by
    rw [retryLoop_range3]
    rcases h0 : createId 0 with _ | i0
    · rcases h1 : createId 1 with _ | i1
      · rcases h2 : createId 2 with _ | i2
        · exfalso
          rcases hk3 with rfl | rfl | rfl <;> simp_all
        · simp [create_patient_record, h0, h1, h2]
      · simp [create_patient_record, h0, h1]
    · simp [create_patient_record, h0]
  obtain ⟨p, hpat⟩ := Option.isSome_iff_exists.mp hp
  unfold complete_assessment
  simp [hpat, StepResult.isCompleteResult, StepResult.urgencyOf]

lemma complete_assessment_allfail (createId : Nat → Option String) (s : TriageSession)
    (la lf : Option String) (h : ∀ k, k < max_retries → createId k = none) :
    complete_assessment createId s la lf =
      ⟨.failure "Sorry, there was an issue completing your assessment. Please try again or see the front desk."
          QUESTIONS.length QUESTIONS.length,
        s, 3, [0.5, 0.5]⟩ := by
  unfold complete_assessment
  dsimp only
  rw [retryLoop_range3]
  simp [create_patient_record, h 0 (by decide), h 1 (by decide), h 2 (by decide)]

lemma complete_assessment_session_cases (createId : Nat → Option String) (s : TriageSession)
    (la lf : Option String) :
    ((complete_assessment createId s la lf).session = { s with is_complete := true } ∧
      (complete_assessment createId s la lf).result.isCompleteResult = true) ∨
    ((complete_assessment createId s la lf).session = s ∧
      (complete_assessment createId s la lf).result.isFailure = true) := by
  unfold complete_assessment
  rcases hp : (retryLoop (fun j => create_patient_record s (calculate_urgency s) (createId j))
      (List.range max_retries)).patient with _ | p
  · right
    simp [hp, StepResult.isFailure]
  · left
    simp [hp, StepResult.isCompleteResult]

lemma complete_assessment_attempts_le (createId : Nat → Option String) (s : TriageSession)
    (la lf : Option String) :
    (complete_assessment createId s la lf).attempts ≤ 3 := by
  unfold complete_assessment
  rcases hp : (retryLoop (fun j => create_patient_record s (calculate_urgency s) (createId j))
      (List.range max_retries)).patient with _ | p <;>
    simp [hp] <;>
    exact retryLoop_attempts_le _

lemma isFailure_of_isCompleteResult {r : StepResult} (h : r.isCompleteResult = true) :
    r.isFailure = false := by
  cases r <;> simp_all [StepResult.isCompleteResult, StepResult.isFailure]

/-! ### Claim C3 -/

/-- C3 counterexample: a session that answered all 8 questions while the
persistence collaborator failed every attempt has positionIndex 8 with
isComplete still false, refuting the biconditional
isComplete ⇔ positionIndex = N. -/
theorem c3_invariant_counterexample :
    stuckSession.current_question_index = 8 ∧
    stuckSession.is_complete = false ∧
    ¬(stuckSession.is_complete = true ↔ stuckSession.current_question_index = 8) := by
  refine ⟨by decide, by decide, fun h => ?_⟩
  have h1 : stuckSession.is_complete = true := h.mpr (by decide)
  exact absurd h1 (by decide)

/-- C3 (amended): positionIndex advances by exactly 1 per accepted answer,
never regresses, and stays within [0, N]; isComplete implies
positionIndex = N; and when the final answer is accepted and record
creation succeeds within the retry budget the session is marked complete —
the converse direction isComplete ⇐ positionIndex = N holds only on the
successful-finalization path. -/
theorem c3_position_invariant (createId : Nat → Option String) (s : TriageSession) (t : String)
    (hle : s.current_question_index ≤ QUESTIONS.length)
    (hinv : s.is_complete = true → s.current_question_index = QUESTIONS.length) :
    s.current_question_index
      ≤ (process_voice_response createId s t).session.current_question_index ∧
    (process_voice_response createId s t).session.current_question_index
      ≤ QUESTIONS.length ∧
    (s.current_question_index < QUESTIONS.length →
      ((runValidator (currentQuestion s).validator t).ok = true →
        (process_voice_response createId s t).session.current_question_index
          = s.current_question_index + 1) ∧
      ((runValidator (currentQuestion s).validator t).ok = false →
        (process_voice_response createId s t).session = s)) ∧
    ((process_voice_response createId s t).session.is_complete = true →
      (process_voice_response createId s t).session.current_question_index
        = QUESTIONS.length) ∧
    (s.current_question_index + 1 = QUESTIONS.length →
      (runValidator (currentQuestion s).validator t).ok = true →
      (∃ k, k < max_retries ∧ (createId k).isSome) →
      (process_voice_response createId s t).session.is_complete = true) := by
  by_cases hge : QUESTIONS.length ≤ s.current_question_index
  · have hidx : s.current_question_index = QUESTIONS.length := le_antisymm hle hge
    have hout : process_voice_response createId s t = complete_assessment createId s none none := by
      unfold process_voice_response
      rw [if_pos hge]
    rcases complete_assessment_session_cases createId s none none with ⟨hs, _⟩ | ⟨hs, _⟩
    · refine ⟨?_, ?_, ?_, ?_, ?_⟩
      · simp [hout, hs]
      · simpa [hout, hs] using hle
      · intro h
        exact absurd h (by omega)
      · intro _
        simp [hout, hs, hidx]
      · intro _ _ _
        simp [hout, hs]
    · refine ⟨?_, ?_, ?_, ?_, ?_⟩
      · simp [hout, hs]
      · simpa [hout, hs] using hle
      · intro h
        exact absurd h (by omega)
      · simpa [hout, hs] using hinv
      · intro h _ _
        exact absurd h (by omega)
  · rcases hok : (runValidator (currentQuestion s).validator t).ok with _ | _
    · have hstep := process_rejected_eq createId s t hge hok
      refine ⟨?_, ?_, ?_, ?_, ?_⟩
      · simp [hstep]
      · simpa [hstep] using hle
      · intro _
        exact ⟨fun habs => Bool.noConfusion habs, fun _ => by simp [hstep]⟩
      · simpa [hstep] using hinv
      · intro _ habs _
        exact Bool.noConfusion habs
    · have hstep := process_accepted_eq createId s t hge hok
      by_cases hdone : QUESTIONS.length ≤ s.current_question_index + 1
      · rw [if_pos hdone] at hstep
        have hlen : s.current_question_index + 1 = QUESTIONS.length := by omega
        rcases complete_assessment_session_cases createId (answeredSession s t)
            (some (runValidator (currentQuestion s).validator t).value)
            (some (currentQuestion s).id) with ⟨hs, _⟩ | ⟨hs, _⟩
        · refine ⟨?_, ?_, ?_, ?_, ?_⟩
          · simp [hstep, hs, answeredSession_idx]
          · simp [hstep, hs, answeredSession_idx]
            omega
          · intro _
            refine ⟨fun _ => by simp [hstep, hs, answeredSession_idx], fun habs => Bool.noConfusion habs⟩
          · intro _
            simp [hstep, hs, answeredSession_idx, hlen]
          · intro _ _ _
            simp [hstep, hs]
        · refine ⟨?_, ?_, ?_, ?_, ?_⟩
          · simp [hstep, hs, answeredSession_idx]
          · simp [hstep, hs, answeredSession_idx]
            omega
          · intro _
            refine ⟨fun _ => by simp [hstep, hs, answeredSession_idx], fun habs => Bool.noConfusion habs⟩
          · intro _
            simp [hstep, hs, answeredSession_idx, hlen]
          · intro _ _ hsucc
            have hsucc2 := (complete_assessment_success createId (answeredSession s t)
              (some (runValidator (currentQuestion s).validator t).value)
              (some (currentQuestion s).id) hsucc).1
            simp [hstep, hsucc2]
      · rw [if_neg hdone] at hstep
        refine ⟨?_, ?_, ?_, ?_, ?_⟩
        · simp [hstep, answeredSession_idx]
        · simp [hstep, answeredSession_idx]
          omega
        · intro _
          refine ⟨fun _ => by simp [hstep, answeredSession_idx], fun habs => Bool.noConfusion habs⟩
        · intro h
          rw [hstep] at h
          simp [answeredSession_complete] at h
          exact absurd (hinv h) (by omega)
        · intro h _ _
          exact absurd h (by omega)

/-- C3 witness: one accepted answer from the fresh session advances the
position from 0 to 1. -/
theorem c3_position_invariant_witness :
    (process_voice_response okCreate (TriageSession.init "w3")
      "John Smith").session.current_question_index = 0 + 1 := by
  have h := c3_position_invariant okCreate (TriageSession.init "w3") "John Smith"
    (by decide) (by decide)
  exact (h.2.2.1 (by decide)).1 (by decide)

/-! ### Claim C5 -/

/-- C5: a rejected answer leaves the session (hence positionIndex and the
stored answers) unchanged and returns the same questionId with the question
text re-asked verbatim behind the error message. -/
theorem c5_rejected_frame (createId : Nat → Option String) (s : TriageSession) (t : String)
    (hidx : s.current_question_index < QUESTIONS.length)
    (hrej : (runValidator (currentQuestion s).validator t).ok = false) :
    (process_voice_response createId s t).session = s ∧
    (process_voice_response createId s t).result =
      .retryError
        ((runValidator (currentQuestion s).validator t).error ++ " " ++ (currentQuestion s).text)
        (currentQuestion s).id (s.current_question_index + 1) QUESTIONS.length
        (runValidator (currentQuestion s).validator t).error t := by
  unfold process_voice_response
  rw [if_neg (by omega)]
  dsimp only
  rw [hrej]
  simp

/-- C5 witness: the one-letter name "J" is rejected at the first question
and the fresh session is returned unchanged. -/
theorem c5_rejected_frame_witness :
    (process_voice_response okCreate (TriageSession.init "w5") "J").session
      = TriageSession.init "w5" :=
  (c5_rejected_frame okCreate (TriageSession.init "w5") "J" (by decide) (by decide)).1

/-! ### Claim C6 -/

/-- C6: on completion, record creation is attempted exactly 3 times when
every attempt fails, with a recorded 0.5 delay between consecutive
attempts, and only then is the finalization error surfaced; the session is
then left not complete, and re-invoking the submit-answer operation
re-attempts finalization (completing the session with the answers intact)
instead of re-running the interview; a collaborator that succeeds within
the budget never surfaces the error and never exceeds 3 attempts. -/
theorem c6_finalization_retry (s : TriageSession) (t t2 t3 : String)
    (o1 o2 o3 : Nat → Option String)
    (hidx : s.current_question_index = QUESTIONS.length)
    (hnc : s.is_complete = false)
    (hfail : ∀ k, k < max_retries → o1 k = none)
    (hok2 : ∃ k, k < max_retries ∧ (o2 k).isSome)
    (hok3 : ∃ k, k < max_retries ∧ (o3 k).isSome) :
    (process_voice_response o1 s t).attempts = 3 ∧
    (process_voice_response o1 s t).sleeps = [0.5, 0.5] ∧
    (process_voice_response o1 s t).result.isFailure = true ∧
    (process_voice_response o1 s t).session = s ∧
    (process_voice_response o1 s t).session.is_complete = false ∧
    (process_voice_response o3 s t3).result.isFailure = false ∧
    (process_voice_response o3 s t3).attempts ≤ 3 ∧
    (process_voice_response o2
      (process_voice_response o1 s t).session t2).result.isCompleteResult = true ∧
    (process_voice_response o2
      (process_voice_response o1 s t).session t2).session.is_complete = true ∧
    (process_voice_response o2
      (process_voice_response o1 s t).session t2).session.responses = s.responses ∧
    (process_voice_response o2
      (process_voice_response o1 s t).session t2).session.current_question_index
        = s.current_question_index := by
  have hguard : ∀ o : Nat → Option String, ∀ u : String,
      process_voice_response o s u = complete_assessment o s none none := by
    intro o u
    unfold process_voice_response
    rw [if_pos (by omega)]
  have h1 := complete_assessment_allfail o1 s none none hfail
  have h3 := complete_assessment_success o3 s none none hok3
  have hsession1 : (process_voice_response o1 s t).session = s := by
    rw [hguard o1 t, h1]
  have h2 := complete_assessment_success o2 s none none hok2
  refine ⟨?_, ?_, ?_, hsession1, ?_, ?_, ?_, ?_, ?_, ?_, ?_⟩
  · rw [hguard o1 t, h1]
  · rw [hguard o1 t, h1]
  · rw [hguard o1 t, h1]
    rfl
  · rw [hsession1]
    exact hnc
  · rw [hguard o3 t3]
    exact isFailure_of_isCompleteResult h3.2.1
  · rw [hguard o3 t3]
    exact complete_assessment_attempts_le o3 s none none
  · rw [hsession1, hguard o2 t2]
    exact h2.2.1
  · rw [hsession1, hguard o2 t2, h2.1]
  · rw [hsession1, hguard o2 t2, h2.1]
  · rw [hsession1, hguard o2 t2, h2.1]

/-- C6 witness: the stuck end-to-end session (all 8 answers accepted,
persistence failing) exhibits the retry budget, the surfaced error, the
not-complete state, and the successful re-finalization. -/
theorem c6_finalization_retry_witness :
    (process_voice_response failingCreate stuckSession "x").attempts = 3 ∧
    (process_voice_response failingCreate stuckSession "x").result.isFailure = true ∧
    (process_voice_response okCreate
      (process_voice_response failingCreate stuckSession
        "x").session "y").session.is_complete = true := by
  have h := c6_finalization_retry stuckSession "x" "y" "z" failingCreate okCreate okCreate
    (by decide) (by decide) (fun k _ => rfl) ⟨0, by decide, rfl⟩ ⟨0, by decide, rfl⟩
  exact ⟨h.1, h.2.2.1, h.2.2.2.2.2.2.2.2.1⟩

/-! ### Claim C7 -/

/-- C7: calling the submit-answer operation on a session whose position has
reached N is reprocessed as completion: with a succeeding persistence
collaborator it returns the completion summary (carrying the recomputed
urgency score) instead of erroring, and neither the position nor the stored
answers change. -/
theorem c7_post_completion_idempotent (createId : Nat → Option String) (s : TriageSession)
    (t : String)
    (hidx : QUESTIONS.length ≤ s.current_question_index)
    (hok : ∃ k, k < max_retries ∧ (createId k).isSome) :
    (process_voice_response createId s t).result.isCompleteResult = true ∧
    (process_voice_response createId s t).result.urgencyOf = some (calculate_urgency s) ∧
    (process_voice_response createId s t).session.current_question_index
      = s.current_question_index ∧
    (process_voice_response createId s t).session.responses = s.responses ∧
    (process_voice_response createId s t).session.is_complete = true := by
  have hguard : process_voice_response createId s t = complete_assessment createId s none none := by
    unfold process_voice_response
    rw [if_pos hidx]
  have h := complete_assessment_success createId s none none hok
  rw [hguard, h.1]
  exact ⟨by rw [← h.1] at *; exact h.2.1, by rw [← h.1] at *; exact h.2.2, rfl, rfl, rfl⟩

/-- C7 witness: re-submitting on the completed end-to-end session returns a
completion result and keeps the position at 8. -/
theorem c7_post_completion_idempotent_witness :
    (process_voice_response okCreate stuckSession "anything").result.isCompleteResult = true ∧
    (process_voice_response okCreate stuckSession
      "anything").session.current_question_index = stuckSession.current_question_index := by
  have h := c7_post_completion_idempotent okCreate stuckSession "anything"
    (by decide) ⟨0, by decide, rfl⟩
  exact ⟨h.1, h.2.2.1⟩

/-! ### Claim C4 -/

/-- C4: the yes/no validator lowercases, strips whitespace, and removes
punctuation, then accepts with normalized "Yes" when any word of the fixed
positive set occurs as a substring of the cleaned text, else accepts with
normalized "No" when any word of the fixed negative set occurs, else
rejects echoing the raw response; the positive scan takes precedence when
both sets match. -/
theorem c4_boolean_validator (r : String) :
    ((∃ w ∈ positive_words, hasSub w.toList (boolCleaned r) = true) →
      validate_boolean r = ⟨true, "Yes", ""⟩) ∧
    ((∀ w ∈ positive_words, hasSub w.toList (boolCleaned r) = false) →
      (∃ w ∈ negative_words, hasSub w.toList (boolCleaned r) = true) →
      validate_boolean r = ⟨true, "No", ""⟩) ∧
    ((∀ w ∈ positive_words, hasSub w.toList (boolCleaned r) = false) →
      (∀ w ∈ negative_words, hasSub w.toList (boolCleaned r) = false) →
      validate_boolean r = ⟨false, r, "Please answer with \x27yes\x27 or \x27no\x27."⟩) ∧
    ((∃ w ∈ positive_words, hasSub w.toList (boolCleaned r) = true) →
      (∃ w ∈ negative_words, hasSub w.toList (boolCleaned r) = true) →
      validate_boolean r = ⟨true, "Yes", ""⟩) := by
  unfold validate_boolean
  dsimp only
  rcases hpos : positive_words.any (fun w => hasSub w.toList (boolCleaned r)) with _ | _
  · rcases hneg : negative_words.any (fun w => hasSub w.toList (boolCleaned r)) with _ | _
    · simp only [hpos, hneg, Bool.false_eq_true, if_false]
      refine ⟨?_, ?_, fun _ _ => trivial, ?_⟩
      · intro h
        rw [List.any_eq_false] at hpos
        obtain ⟨w, hw, hsub⟩ := h
        exact absurd hsub (by simpa using hpos w hw)
      · intro _ h
        rw [List.any_eq_false] at hneg
        obtain ⟨w, hw, hsub⟩ := h
        exact absurd hsub (by simpa using hneg w hw)
      · intro h _
        rw [List.any_eq_false] at hpos
        obtain ⟨w, hw, hsub⟩ := h
        exact absurd hsub (by simpa using hpos w hw)
    · simp only [hpos, hneg, Bool.false_eq_true, if_false, if_true]
      refine ⟨?_, fun _ _ => trivial, ?_, ?_⟩
      · intro h
        rw [List.any_eq_false] at hpos
        obtain ⟨w, hw, hsub⟩ := h
        exact absurd hsub (by simpa using hpos w hw)
      · intro _ hall
        rw [List.any_eq_true] at hneg
        obtain ⟨w, hw, hsub⟩ := hneg
        have := hall w hw
        simp_all
      · intro h _
        rw [List.any_eq_false] at hpos
        obtain ⟨w, hw, hsub⟩ := h
        exact absurd hsub (by simpa using hpos w hw)
  · simp only [hpos, if_true]
    refine ⟨fun _ => trivial, ?_, ?_, fun _ _ => trivial⟩
    · intro hall _
      rw [List.any_eq_true] at hpos
      obtain ⟨w, hw, hsub⟩ := hpos
      have := hall w hw
      simp_all
    · intro hall _
      rw [List.any_eq_true] at hpos
      obtain ⟨w, hw, hsub⟩ := hpos
      have := hall w hw
      simp_all

/-- C4 witness: the three reference inputs — "yeah sure" accepted as "Yes",
"nope" accepted as "No", "maybe" rejected. -/
theorem c4_boolean_validator_witness :
    validate_boolean "yeah sure" = ⟨true, "Yes", ""⟩ ∧
    validate_boolean "nope" = ⟨true, "No", ""⟩ ∧
    validate_boolean "maybe"
      = ⟨false, "maybe", "Please answer with \x27yes\x27 or \x27no\x27."⟩ := by
  refine ⟨(c4_boolean_validator "yeah sure").1 ?_,
    (c4_boolean_validator "nope").2.1 ?_ ?_,
    (c4_boolean_validator "maybe").2.2.1 ?_ ?_⟩ <;> decide

/-! ### Claim C9 -/

/-- C9: the scorer is total over partially-filled sessions — with no
emergency answers recorded every flag takes its non-urgent default
(bleeding, breathing, chest pain count as false; mobility counts as able to
walk) and a missing or zero age adds no bump, so the score is exactly the
0.3 base and the priority level is 4. -/
theorem c9_missing_answer_defaults (s : TriageSession)
    (hb : dictFind s.emergency_responses "bleeding" = none)
    (hbr : dictFind s.emergency_responses "breathing" = none)
    (hcp : dictFind s.emergency_responses "chest_pain" = none)
    (hmob : dictFind s.emergency_responses "mobility" = none)
    (ha : s.age = none ∨ s.age = some 0) :
    calculate_urgency s = 0.3 ∧
    (triage_level_of_score (calculate_urgency s)).toInt = 4 := by
  have h03 : calculate_urgency s = 0.3 := by
    unfold calculate_urgency dictGet
    rw [hb, hbr, hcp, hmob]
    rcases ha with ha | ha <;> rw [ha] <;> simp <;> norm_num [min_def]
  refine ⟨h03, ?_⟩
  rw [h03, toInt_eq_four_iff, level_eq_four_iff]
  norm_num

/-- C9 witness: the freshly started session has no answers at all and
scores the 0.3 base, priority level 4. -/
theorem c9_missing_answer_defaults_witness :
    calculate_urgency (TriageSession.init "w9") = 0.3 ∧
    (triage_level_of_score (calculate_urgency (TriageSession.init "w9"))).toInt = 4 :=
  c9_missing_answer_defaults (TriageSession.init "w9") rfl rfl rfl rfl (Or.inl rfl)

/-! ### Claim C8 -/

lemma canonical_key_sorted (l : Payload) :
    List.Sorted (fun p q : String × String => p.1 ≤ q.1) (canonical_key l) := by
  haveI : IsTotal (String × String) (fun p q : String × String => p.1 ≤ q.1) :=
    ⟨fun a b => le_total a.1 b.1⟩
  haveI : IsTrans (String × String) (fun p q : String × String => p.1 ≤ q.1) :=
    ⟨fun a b c u v => le_trans u v⟩
  exact List.sorted_insertionSort _ l

lemma canonical_key_perm (l : Payload) : (canonical_key l).Perm l :=
  List.perm_insertionSort _ l

lemma canonical_key_sorted_strict (l : Payload) (hnd : (l.map Prod.fst).Nodup) :
    List.Pairwise (fun p q : String × String => p.1 ≤ q.1 ∧ p.1 ≠ q.1) (canonical_key l) := by
  have hnd2 : ((canonical_key l).map Prod.fst).Nodup :=
    (((canonical_key_perm l).map Prod.fst).nodup_iff).mpr hnd
  have hne : List.Pairwise (fun p q : String × String => p.1 ≠ q.1) (canonical_key l) :=
    List.pairwise_map.mp hnd2
  exact (canonical_key_sorted l).and hne

/-- C8: the response cache — an immediate get after a set returns the
cached value; a get strictly more than the 30-minute duration after the set
reports absent and lazily evicts the entry from the table; and two payloads
holding the same fields in different insertion orders (field names not
repeated) canonicalize to the same cache key. -/
theorem c8_cache_contract (c : AISummaryCache) (d d1 d2 : Payload) (v : String) (t t2 : ℚ)
    (hexp : cache_duration < t2 - t)
    (hperm : d1.Perm d2)
    (hnd : (d1.map Prod.fst).Nodup) :
    ((c.set t d v).get t d).value = some v ∧
    ((c.set t d v).get t2 d).value = none ∧
    ((c.set t d v).get t2 d).after.cache (canonical_key d) = none ∧
    canonical_key d1 = canonical_key d2 := by
  have hlt : t - t < cache_duration := by
    norm_num [cache_duration]
  have hnl : ¬ (t2 - t < cache_duration) := not_lt.mpr hexp.le
  refine ⟨?_, ?_, ?_, ?_⟩
  · simp [AISummaryCache.get, AISummaryCache.set, cache_duration]
  · simp [AISummaryCache.get, AISummaryCache.set, hnl]
  · simp [AISummaryCache.get, AISummaryCache.set, hnl]
  · have hp12 : (canonical_key d1).Perm (canonical_key d2) :=
      (canonical_key_perm d1).trans (hperm.trans (canonical_key_perm d2).symm)
    have hnd2 : (d2.map Prod.fst).Nodup := ((hperm.map Prod.fst).nodup_iff).mp hnd
    haveI : IsAntisymm (String × String)
        (fun p q : String × String => p.1 ≤ q.1 ∧ p.1 ≠ q.1) :=
      ⟨fun a b hab hba => absurd (le_antisymm hab.1 hba.1) hab.2⟩
    exact List.eq_of_perm_of_sorted hp12
      (canonical_key_sorted_strict d1 hnd)
      (canonical_key_sorted_strict d2 hnd2)

/-- C8 witness: a concrete two-field payload — immediate hit, absence and
eviction after 30 minutes and one second, and order-independent keys. -/
theorem c8_cache_contract_witness :
    ((AISummaryCache.empty.set 0 [("b", "2"), ("a", "1")] "cached").get 0
      [("b", "2"), ("a", "1")]).value = some "cached" ∧
    ((AISummaryCache.empty.set 0 [("b", "2"), ("a", "1")] "cached").get 1801
      [("b", "2"), ("a", "1")]).value = none ∧
    ((AISummaryCache.empty.set 0 [("b", "2"), ("a", "1")] "cached").get 1801
      [("b", "2"), ("a", "1")]).after.cache (canonical_key [("b", "2"), ("a", "1")]) = none ∧
    canonical_key [("b", "2"), ("a", "1")] = canonical_key [("a", "1"), ("b", "2")] := by
  exact c8_cache_contract AISummaryCache.empty [("b", "2"), ("a", "1")]
    [("b", "2"), ("a", "1")] [("a", "1"), ("b", "2")] "cached" 0 1801
    (by norm_num [cache_duration]) (List.Perm.swap ("a", "1") ("b", "2") [])
    (by decide)

/-! ### Claim C10 -/

/-- C10: after any startSession call the active-session table maps the id
to a fresh session — position 0, empty answers, not complete — even when an
in-progress interview was registered under the same id (its collected
answers are discarded). -/
theorem c10_start_session_overwrites (o : Orchestrator) (session_id : String) :
    dictFind (start_session o session_id).1.active_sessions session_id
      = some (TriageSession.init session_id) ∧
    (TriageSession.init session_id).current_question_index = 0 ∧
    (TriageSession.init session_id).responses = [] ∧
    (TriageSession.init session_id).is_complete = false := by
  refine ⟨?_, rfl, rfl, rfl⟩
  unfold start_session
  exact dictFind_dictSet_self o.active_sessions session_id (TriageSession.init session_id)

end Triage
